import Mathlib

/-!
Shallow embedding of the authentication and resilient-request core of
`twitchAPI/twitch.py` (class `Twitch`): credential store, header builder,
token refresher and the retry/refresh request executor, together with
theorems settling the specification claims about them.

Network effects are made explicit: the stream of resource-endpoint status
codes is a function `Nat → Nat` (attempt index to status code), and the
auth-endpoint / OAuth-helper outcomes consumed by a refresh are a function
`Nat → RefreshEnv` (refresh index to outcome).
-/

namespace TwitchAPI

/-- Scope identifiers: members of the `AuthScope` enum from `twitchAPI.types`.
Only identity matters here, so a scope is its `name` string. -/
abbrev AuthScope := String

/-- The `AuthType` tagged variant (`APP`, `USER`, `EITHER`) selecting which
credential a call requires. -/
inductive AuthType where
  | APP
  | USER
  | EITHER
deriving DecidableEq, Repr

/-- The typed exceptions the core raises, each carrying its message string. -/
inductive TwitchError where
  | UnauthorizedException (msg : String)
  | MissingScopeException (msg : String)
  | TwitchAuthorizationException (msg : String)
  | TwitchBackendException (msg : String)
deriving DecidableEq, Repr

/-- The mutable fields of class `Twitch`: app/user credentials with their
scope lists and presence flags, plus the `auto_refresh_auth` toggle. -/
structure Twitch where
  app_id : String
  app_secret : String
  app_auth_token : Option String
  app_auth_scope : List AuthScope
  has_app_auth : Bool
  user_auth_token : Option String
  user_auth_refresh_token : Option String
  user_auth_scope : List AuthScope
  has_user_auth : Bool
  auto_refresh_auth : Bool
deriving DecidableEq, Repr

/-- Python f-string rendering of an optional token (`None` prints as "None"). -/
def pyStr : Option String → String
  | some s => s
  | none => "None"

/-- `Twitch.__generate_header`: builds the request header from the auth type
and the call's required scopes. Always starts from `Client-ID`; `APP`/`USER`
modes demand the matching credential and scope coverage, `EITHER` attaches
whichever token is available (user preferred) or none at all. -/
def generate_header (self : Twitch) (auth_type : AuthType)
    (required_scope : List AuthScope) : Except TwitchError (List (String × String)) :=
  let header := [("Client-ID", self.app_id)]
  match auth_type with
  | AuthType.APP =>
      if self.has_app_auth = false then
        Except.error (TwitchError.UnauthorizedException "Require app authentication!")
      else
        match required_scope.find? (fun s => decide (s ∉ self.app_auth_scope)) with
        | some s =>
            Except.error (TwitchError.MissingScopeException ("Require app auth scope " ++ s))
        | none =>
            Except.ok (header ++ [("Authorization", "Bearer " ++ pyStr self.app_auth_token)])
  | AuthType.USER =>
      if self.has_user_auth = false then
        Except.error (TwitchError.UnauthorizedException "require user authentication!")
      else
        match required_scope.find? (fun s => decide (s ∉ self.user_auth_scope)) with
        | some s =>
            Except.error (TwitchError.MissingScopeException ("Require user auth scope " ++ s))
        | none =>
            Except.ok (header ++ [("Authorization", "Bearer " ++ pyStr self.user_auth_token)])
  | AuthType.EITHER =>
      if self.has_user_auth || self.has_app_auth then
        Except.ok (header ++ [("Authorization", "Bearer " ++
          pyStr (if self.has_user_auth then self.user_auth_token else self.app_auth_token))])
      else
        Except.ok header

/-- Modelled from the spec: `build_scope` lives in `twitchAPI.helper`, which is
not among the provided sources; per the spec the `scope` parameter is a
space-delimited encoding of the granted scope set. -/
def build_scope (scope : List AuthScope) : String :=
  String.intercalate " " scope

/-- Outcome of the POST to the auth endpoint as observed by
`Twitch.__generate_app_token`: HTTP 200 with a JSON body carrying
`access_token`; a non-200 status with its body text; a 200 body that is not
valid JSON; or a 200 JSON body without an `access_token` field. -/
inductive AuthResponse where
  | ok (access_token : String)
  | httpError (status : Nat) (text : String)
  | invalidJson
  | missingToken
deriving DecidableEq, Repr

/-- The form parameters `Twitch.__generate_app_token` sends to the auth
endpoint; the scope value is built from the stored app scope list. -/
def app_token_params (self : Twitch) : List (String × String) :=
  [("client_id", self.app_id),
   ("client_secret", self.app_secret),
   ("grant_type", "client_credentials"),
   ("scope", build_scope self.app_auth_scope)]

/-- `Twitch.__generate_app_token`: on a 200 response with an `access_token`
field, replace the stored app token; otherwise raise
`TwitchAuthorizationException` describing the failure. No other field of the
state is touched. -/
def generate_app_token (self : Twitch) (resp : AuthResponse) : Except TwitchError Twitch :=
  match resp with
  | AuthResponse.ok tok => Except.ok { self with app_auth_token := some tok }
  | AuthResponse.httpError code text =>
      Except.error (TwitchError.TwitchAuthorizationException
        ("Authentication failed with code " ++ toString code ++ " (" ++ text ++ ")"))
  | AuthResponse.invalidJson =>
      Except.error (TwitchError.TwitchAuthorizationException
        "Authentication response did not have a valid json body")
  | AuthResponse.missingToken =>
      Except.error (TwitchError.TwitchAuthorizationException
        "Authentication response did not contain access_token")

/-- `Twitch.authenticate_app`: stores the requested scope list first, then
generates the app token; on success also sets the has-app-auth flag. A raised
error propagates while the scope assignment persists, so the pair returned is
the state as left behind together with the optional error. -/
def authenticate_app (self : Twitch) (scope : List AuthScope) (resp : AuthResponse) :
    Twitch × Option TwitchError :=
  let s1 := { self with app_auth_scope := scope }
  match generate_app_token s1 resp with
  | Except.ok s2 => ({ s2 with has_app_auth := true }, none)
  | Except.error e => (s1, some e)

/-- Outcome of one call to `twitchAPI.oauth.refresh_access_token`: that helper
is an external collaborator (not among the provided sources) which either
returns a fresh token/refresh-token pair or raises; its outcome is an input of
the model. -/
inductive UserRefreshResult where
  | ok (token : String) (refresh_token : String)
  | error (e : TwitchError)
deriving DecidableEq, Repr

/-- The auth-endpoint environment one refresh invocation may consume: the
OAuth helper's outcome if the user path is taken, the auth endpoint's response
if the app path is taken. -/
structure RefreshEnv where
  user_refresh : UserRefreshResult
  app_response : AuthResponse
deriving DecidableEq, Repr

/-- `Twitch.refresh_used_token`: when user auth is set, exchange the stored
refresh token for a fresh token pair and store both; otherwise regenerate the
app token. The branch depends only on the has-user-auth flag. -/
def refresh_used_token (self : Twitch) (env : RefreshEnv) : Except TwitchError Twitch :=
  if self.has_user_auth then
    match env.user_refresh with
    | UserRefreshResult.ok tok rtok =>
        Except.ok { self with user_auth_token := some tok,
                              user_auth_refresh_token := some rtok }
    | UserRefreshResult.error e => Except.error e
  else
    generate_app_token self env.app_response

/-- The executor's terminal observation: either the raw response of attempt
`idx` (0-based, carrying its HTTP status code) is handed back to the caller,
or the executor raises. -/
inductive ExecOutcome where
  | returned (idx : Nat) (status : Nat)
  | raised (e : TwitchError)
deriving DecidableEq, Repr

/-- Observable trace of one executor run: outcome, number of HTTP attempts
made against the resource endpoint, number of `refresh_used_token`
invocations, the header sent on each attempt (in order), and the credential
state left behind. -/
structure ExecResult where
  outcome : ExecOutcome
  attempts : Nat
  refreshes : Nat
  headers : List (List (String × String))
  final : Twitch
deriving DecidableEq, Repr

/-- `Twitch.__api_get_request`: build the header (failing fast on a header
error), perform the attempt (attempt `i` receives status `responses i`), then,
when `auto_refresh_auth` is set and the retry budget is positive, refresh and
re-enter on 401 with the budget decremented, or re-enter once with budget 0 on
503; when the budget is exhausted a 503 raises `TwitchBackendException`; any
other response is returned raw. `r` indexes the refresh environment. -/
def api_get_request (self : Twitch) (auth_type : AuthType)
    (required_scope : List AuthScope) (retries : Nat)
    (responses : Nat → Nat) (renv : Nat → RefreshEnv) (i r : Nat) : ExecResult :=
  match generate_header self auth_type required_scope with
  | Except.error e =>
      { outcome := ExecOutcome.raised e, attempts := 0, refreshes := 0,
        headers := [], final := self }
  | Except.ok hdr =>
      let status := responses i
      if h : self.auto_refresh_auth = true ∧ 0 < retries then
        if status = 401 then
          match refresh_used_token self (renv r) with
          | Except.ok self2 =>
              let rest := api_get_request self2 auth_type required_scope
                (retries - 1) responses renv (i + 1) (r + 1)
              { outcome := rest.outcome, attempts := rest.attempts + 1,
                refreshes := rest.refreshes + 1, headers := hdr :: rest.headers,
                final := rest.final }
          | Except.error e =>
              { outcome := ExecOutcome.raised e, attempts := 1, refreshes := 1,
                headers := [hdr], final := self }
        else if status = 503 then
          let rest := api_get_request self auth_type required_scope
            0 responses renv (i + 1) r
          { outcome := rest.outcome, attempts := rest.attempts + 1,
            refreshes := rest.refreshes, headers := hdr :: rest.headers,
            final := rest.final }
        else
          { outcome := ExecOutcome.returned i status, attempts := 1, refreshes := 0,
            headers := [hdr], final := self }
      else if self.auto_refresh_auth = true ∧ retries = 0 then
        if status = 503 then
          { outcome := ExecOutcome.raised
              (TwitchError.TwitchBackendException "The Twitch API returns a server error"),
            attempts := 1, refreshes := 0, headers := [hdr], final := self }
        else
          { outcome := ExecOutcome.returned i status, attempts := 1, refreshes := 0,
            headers := [hdr], final := self }
      else
        { outcome := ExecOutcome.returned i status, attempts := 1, refreshes := 0,
          headers := [hdr], final := self }
termination_by retries
decreasing_by
  · exact Nat.sub_lt h.2 Nat.one_pos
  · exact h.2

/-- `Twitch.__api_post_request`: same retry/refresh state machine as the GET
executor; the optional JSON body is carried along unchanged on every re-entry
and does not influence control flow. -/
def api_post_request (self : Twitch) (auth_type : AuthType)
    (required_scope : List AuthScope) (data : Option (List (String × String)))
    (retries : Nat) (responses : Nat → Nat) (renv : Nat → RefreshEnv)
    (i r : Nat) : ExecResult :=
  match generate_header self auth_type required_scope with
  | Except.error e =>
      { outcome := ExecOutcome.raised e, attempts := 0, refreshes := 0,
        headers := [], final := self }
  | Except.ok hdr =>
      let status := responses i
      if h : self.auto_refresh_auth = true ∧ 0 < retries then
        if status = 401 then
          match refresh_used_token self (renv r) with
          | Except.ok self2 =>
              let rest := api_post_request self2 auth_type required_scope data
                (retries - 1) responses renv (i + 1) (r + 1)
              { outcome := rest.outcome, attempts := rest.attempts + 1,
                refreshes := rest.refreshes + 1, headers := hdr :: rest.headers,
                final := rest.final }
          | Except.error e =>
              { outcome := ExecOutcome.raised e, attempts := 1, refreshes := 1,
                headers := [hdr], final := self }
        else if status = 503 then
          let rest := api_post_request self auth_type required_scope data
            0 responses renv (i + 1) r
          { outcome := rest.outcome, attempts := rest.attempts + 1,
            refreshes := rest.refreshes, headers := hdr :: rest.headers,
            final := rest.final }
        else
          { outcome := ExecOutcome.returned i status, attempts := 1, refreshes := 0,
            headers := [hdr], final := self }
      else if self.auto_refresh_auth = true ∧ retries = 0 then
        if status = 503 then
          { outcome := ExecOutcome.raised
              (TwitchError.TwitchBackendException "The Twitch API returns a server error"),
            attempts := 1, refreshes := 0, headers := [hdr], final := self }
        else
          { outcome := ExecOutcome.returned i status, attempts := 1, refreshes := 0,
            headers := [hdr], final := self }
      else
        { outcome := ExecOutcome.returned i status, attempts := 1, refreshes := 0,
          headers := [hdr], final := self }
termination_by retries
decreasing_by
  · exact Nat.sub_lt h.2 Nat.one_pos
  · exact h.2

/-- `Twitch.get_used_token`: the user token when user auth is set, else the
app token (which is `none` when no auth is set at all). -/
def get_used_token (self : Twitch) : Option String :=
  if self.has_user_auth then self.user_auth_token else self.app_auth_token

/-- `Twitch.get_app_token`. -/
def get_app_token (self : Twitch) : Option String :=
  self.app_auth_token

/-- `Twitch.get_user_auth_token`. -/
def get_user_auth_token (self : Twitch) : Option String :=
  self.user_auth_token

/-! ## Concrete states and environments used by witnesses and counterexamples -/

/-- A client holding both an app and a user credential, auto-refresh on. -/
def bothAuth : Twitch :=
  { app_id := "id", app_secret := "sec", app_auth_token := some "appT",
    app_auth_scope := ["A"], has_app_auth := true,
    user_auth_token := some "userT", user_auth_refresh_token := some "rT",
    user_auth_scope := ["B"], has_user_auth := true, auto_refresh_auth := true }

/-- A client with no credential at all, auto-refresh on. -/
def noAuth : Twitch :=
  { app_id := "id", app_secret := "sec", app_auth_token := none,
    app_auth_scope := [], has_app_auth := false,
    user_auth_token := none, user_auth_refresh_token := none,
    user_auth_scope := [], has_user_auth := false, auto_refresh_auth := true }

/-- A client holding only an app credential granting scope `A`. -/
def appOnly : Twitch :=
  { app_id := "id", app_secret := "sec", app_auth_token := some "appT",
    app_auth_scope := ["A"], has_app_auth := true,
    user_auth_token := none, user_auth_refresh_token := none,
    user_auth_scope := [], has_user_auth := false, auto_refresh_auth := true }

/-- Like `appOnly` but with `auto_refresh_auth` disabled. -/
def appOnlyNoRefresh : Twitch :=
  { app_id := "id", app_secret := "sec", app_auth_token := some "appT",
    app_auth_scope := ["A"], has_app_auth := true,
    user_auth_token := none, user_auth_refresh_token := none,
    user_auth_scope := [], has_user_auth := false, auto_refresh_auth := false }

/-- A refresh environment in which both refresh paths would succeed. -/
def envBoth : RefreshEnv :=
  { user_refresh := UserRefreshResult.ok "newU" "newR",
    app_response := AuthResponse.ok "newA" }

/-- Status stream: first attempt 401, everything afterwards 200. -/
def resp401_200 : Nat → Nat :=
  fun i => if i = 0 then 401 else 200

/-- Status stream: 401, then 503, then 200 forever. -/
def resp401_503_200 : Nat → Nat :=
  fun i => if i = 0 then 401 else if i = 1 then 503 else 200

/-- Status stream: first attempt 503, everything afterwards 200. -/
def resp503_200 : Nat → Nat :=
  fun i => if i = 0 then 503 else 200

/-! ## Helper lemmas on the header builder -/

theorem find_unmet_none (G R : List AuthScope) (hsub : ∀ s ∈ R, s ∈ G) :
    R.find? (fun s => decide (s ∉ G)) = none := by
  rw [List.find?_eq_none]
  intro x hx
  simpa using hsub x hx

theorem find_unmet_some (G R : List AuthScope) (hnsub : ¬ ∀ s ∈ R, s ∈ G) :
    ∃ t, R.find? (fun s => decide (s ∉ G)) = some t ∧ t ∈ R ∧ t ∉ G := by
  push_neg at hnsub
  obtain ⟨s, hsR, hsG⟩ := hnsub
  rcases hfind : R.find? (fun s => decide (s ∉ G)) with _ | t
  · rw [List.find?_eq_none] at hfind
    exact absurd hsG (by simpa using hfind s hsR)
  · exact ⟨t, rfl, List.mem_of_find?_eq_some hfind, by simpa using List.find?_some hfind⟩

theorem generate_header_APP_ok (self : Twitch) (R : List AuthScope)
    (happ : self.has_app_auth = true)
    (hfind : R.find? (fun s => decide (s ∉ self.app_auth_scope)) = none) :
    generate_header self AuthType.APP R =
      Except.ok [("Client-ID", self.app_id),
        ("Authorization", "Bearer " ++ pyStr self.app_auth_token)] := by
  simp only [decide_not] at hfind
  simp [generate_header, happ, hfind]

theorem generate_header_APP_missing (self : Twitch) (R : List AuthScope) (t : AuthScope)
    (happ : self.has_app_auth = true)
    (hfind : R.find? (fun s => decide (s ∉ self.app_auth_scope)) = some t) :
    generate_header self AuthType.APP R =
      Except.error (TwitchError.MissingScopeException ("Require app auth scope " ++ t)) := by
  simp only [decide_not] at hfind
  simp [generate_header, happ, hfind]

theorem generate_header_USER_ok (self : Twitch) (R : List AuthScope)
    (huser : self.has_user_auth = true)
    (hfind : R.find? (fun s => decide (s ∉ self.user_auth_scope)) = none) :
    generate_header self AuthType.USER R =
      Except.ok [("Client-ID", self.app_id),
        ("Authorization", "Bearer " ++ pyStr self.user_auth_token)] := by
  simp only [decide_not] at hfind
  simp [generate_header, huser, hfind]

theorem generate_header_USER_missing (self : Twitch) (R : List AuthScope) (t : AuthScope)
    (huser : self.has_user_auth = true)
    (hfind : R.find? (fun s => decide (s ∉ self.user_auth_scope)) = some t) :
    generate_header self AuthType.USER R =
      Except.error (TwitchError.MissingScopeException ("Require user auth scope " ++ t)) := by
  simp only [decide_not] at hfind
  simp [generate_header, huser, hfind]

/-! ## Helper lemmas on the refresher and the executor -/

theorem generate_app_token_ok (self : Twitch) (resp : AuthResponse) (self2 : Twitch)
    (h : generate_app_token self resp = Except.ok self2) :
    ∃ tok, resp = AuthResponse.ok tok ∧
      self2 = { self with app_auth_token := some tok } := by
  cases resp with
  | ok tok =>
      refine ⟨tok, rfl, ?_⟩
      simpa [generate_app_token] using h.symm
  | httpError c t => simp [generate_app_token] at h
  | invalidJson => simp [generate_app_token] at h
  | missingToken => simp [generate_app_token] at h

theorem refresh_used_token_preserves (self : Twitch) (env : RefreshEnv) (self2 : Twitch)
    (h : refresh_used_token self env = Except.ok self2) :
    self2.auto_refresh_auth = self.auto_refresh_auth ∧
    self2.has_app_auth = self.has_app_auth ∧
    self2.has_user_auth = self.has_user_auth ∧
    self2.app_auth_scope = self.app_auth_scope ∧
    self2.user_auth_scope = self.user_auth_scope ∧
    self2.app_id = self.app_id ∧
    self2.app_secret = self.app_secret := by
  unfold refresh_used_token at h
  rcases hu : self.has_user_auth
  · rw [hu] at h
    simp only [Bool.false_eq_true, if_false] at h
    obtain ⟨tok, -, h2⟩ := generate_app_token_ok self env.app_response self2 h
    subst h2
    simp [hu]
  · rw [hu] at h
    simp only [if_true] at h
    cases henv : env.user_refresh with
    | ok tok rtok =>
        rw [henv] at h
        simp only [Except.ok.injEq] at h
        subst h
        simp [hu]
    | error e =>
        rw [henv] at h
        exact Except.noConfusion h

theorem api_get_request_attempts_le (retries : Nat) :
    ∀ (self : Twitch) (m : AuthType) (R : List AuthScope) (responses : Nat → Nat)
      (renv : Nat → RefreshEnv) (i r : Nat),
      (api_get_request self m R retries responses renv i r).attempts ≤ retries + 1 := by
  induction retries using Nat.strong_induction_on with
  | _ retries ih =>
    intro self m R responses renv i r
    unfold api_get_request
    rcases h : generate_header self m R with e | hdr
    · simp
    · simp only [h]
      by_cases hcond : self.auto_refresh_auth = true ∧ 0 < retries
      · rw [dif_pos hcond]
        by_cases h401 : responses i = 401
        · rw [if_pos h401]
          rcases href : refresh_used_token self (renv r) with e | self2
          · simp
          · have hrec := ih (retries - 1) (by omega) self2 m R responses renv (i + 1) (r + 1)
            simp only []
            simp
            omega
        · rw [if_neg h401]
          by_cases h503 : responses i = 503
          · rw [if_pos h503]
            have hrec := ih 0 (by omega) self m R responses renv (i + 1) r
            simp
            omega
          · rw [if_neg h503]
            simp
      · rw [dif_neg hcond]
        by_cases hc2 : self.auto_refresh_auth = true ∧ retries = 0
        · rw [if_pos hc2]
          by_cases h503 : responses i = 503
          · rw [if_pos h503]
            simp
          · rw [if_neg h503]
            simp
        · rw [if_neg hc2]
          simp

theorem api_post_request_attempts_le (retries : Nat) :
    ∀ (self : Twitch) (m : AuthType) (R : List AuthScope)
      (d : Option (List (String × String))) (responses : Nat → Nat)
      (renv : Nat → RefreshEnv) (i r : Nat),
      (api_post_request self m R d retries responses renv i r).attempts ≤ retries + 1 := by
  induction retries using Nat.strong_induction_on with
  | _ retries ih =>
    intro self m R d responses renv i r
    unfold api_post_request
    rcases h : generate_header self m R with e | hdr
    · simp
    · simp only [h]
      by_cases hcond : self.auto_refresh_auth = true ∧ 0 < retries
      · rw [dif_pos hcond]
        by_cases h401 : responses i = 401
        · rw [if_pos h401]
          rcases href : refresh_used_token self (renv r) with e | self2
          · simp
          · have hrec := ih (retries - 1) (by omega) self2 m R d responses renv (i + 1) (r + 1)
            simp only []
            simp
            omega
        · rw [if_neg h401]
          by_cases h503 : responses i = 503
          · rw [if_pos h503]
            have hrec := ih 0 (by omega) self m R d responses renv (i + 1) r
            simp
            omega
          · rw [if_neg h503]
            simp
      · rw [dif_neg hcond]
        by_cases hc2 : self.auto_refresh_auth = true ∧ retries = 0
        · rw [if_pos hc2]
          by_cases h503 : responses i = 503
          · rw [if_pos h503]
            simp
          · rw [if_neg h503]
            simp
        · rw [if_neg hc2]
          simp

/-! ## Claim theorems -/

/-- C1 (corrected): `refresh_used_token` is invoked by the executor on 401 with no
regard to the failing call's auth mode: it refreshes the user credential whenever
one is installed — leaving the whole app credential and all flags, scopes and ids
untouched — and refreshes the app credential only when no user credential is
installed. The claim's "refresh whichever credential the failing call was using"
fails when an App-mode call runs while a user credential is also installed. -/
theorem refresh_used_token_prefers_user (self : Twitch) (env : RefreshEnv) :
    (self.has_user_auth = true →
      (∀ tok rtok, env.user_refresh = UserRefreshResult.ok tok rtok →
        refresh_used_token self env = Except.ok
          { self with user_auth_token := some tok,
                      user_auth_refresh_token := some rtok }) ∧
      (∀ e, env.user_refresh = UserRefreshResult.error e →
        refresh_used_token self env = Except.error e)) ∧
    (self.has_user_auth = false →
      refresh_used_token self env = generate_app_token self env.app_response ∧
      (∀ tok, env.app_response = AuthResponse.ok tok →
        refresh_used_token self env = Except.ok
          { self with app_auth_token := some tok })) := by
  refine ⟨fun hu => ⟨fun tok rtok henv => ?_, fun e henv => ?_⟩,
    fun hu => ⟨?_, fun tok henv => ?_⟩⟩
  · simp [refresh_used_token, hu, henv]
  · simp [refresh_used_token, hu, henv]
  · simp [refresh_used_token, hu]
  · simp [refresh_used_token, generate_app_token, hu, henv]

/-- C1 witness: with a user credential installed and a successful refresh
environment, `refresh_used_token` replaces exactly the user token pair. -/
theorem refresh_used_token_prefers_user_witness :
    bothAuth.has_user_auth = true ∧
    refresh_used_token bothAuth envBoth = Except.ok
      { bothAuth with user_auth_token := some "newU",
                      user_auth_refresh_token := some "newR" } :=
  ⟨rfl, ((refresh_used_token_prefers_user bothAuth envBoth).1 rfl).1 "newU" "newR" rfl⟩

/-- C1 counterexample: a call issued with `AuthMode = App` (both credentials
installed, auto-refresh on, budget 1) hits a 401; the run performs exactly one
refresh, yet afterwards the app token is unchanged and the user token has been
replaced, and both attempts carried the same old app bearer token — the app
credential was never refreshed, contradicting the claim. -/
theorem refresh_app_mode_counterexample :
    (api_get_request bothAuth AuthType.APP ["A"] 1 resp401_200 (fun _ => envBoth) 0 0).refreshes = 1 ∧
    (api_get_request bothAuth AuthType.APP ["A"] 1 resp401_200 (fun _ => envBoth) 0 0).final.app_auth_token = some "appT" ∧
    (api_get_request bothAuth AuthType.APP ["A"] 1 resp401_200 (fun _ => envBoth) 0 0).final.user_auth_token = some "newU" ∧
    (api_get_request bothAuth AuthType.APP ["A"] 1 resp401_200 (fun _ => envBoth) 0 0).headers =
      [[("Client-ID", "id"), ("Authorization", "Bearer appT")],
       [("Client-ID", "id"), ("Authorization", "Bearer appT")]] := by
  refine ⟨?_, ?_, ?_, ?_⟩ <;>
    simp [api_get_request, generate_header, refresh_used_token, bothAuth, envBoth,
      resp401_200, pyStr]

/-- C2 (corrected): with auto-refresh enabled and a successful header build, a
503 triggers the single resend (headers unchanged, no refresh) only when the
remaining budget is positive; a 503 that arrives with the budget already 0
raises `TwitchBackendException` immediately, with no resend and no refresh.
The same holds for the POST executor. -/
theorem transient_retry_needs_budget (self : Twitch) (m : AuthType) (R : List AuthScope)
    (retries : Nat) (responses : Nat → Nat) (renv : Nat → RefreshEnv) (i r : Nat)
    (hdr : List (String × String))
    (hauto : self.auto_refresh_auth = true)
    (hhdr : generate_header self m R = Except.ok hdr)
    (h503 : responses i = 503) :
    (0 < retries → responses (i + 1) ≠ 503 →
      api_get_request self m R retries responses renv i r =
        { outcome := ExecOutcome.returned (i + 1) (responses (i + 1)),
          attempts := 2, refreshes := 0, headers := [hdr, hdr], final := self }) ∧
    (retries = 0 →
      api_get_request self m R retries responses renv i r =
        { outcome := ExecOutcome.raised
            (TwitchError.TwitchBackendException "The Twitch API returns a server error"),
          attempts := 1, refreshes := 0, headers := [hdr], final := self }) ∧
    (∀ d, 0 < retries → responses (i + 1) ≠ 503 →
      api_post_request self m R d retries responses renv i r =
        { outcome := ExecOutcome.returned (i + 1) (responses (i + 1)),
          attempts := 2, refreshes := 0, headers := [hdr, hdr], final := self }) ∧
    (∀ d, retries = 0 →
      api_post_request self m R d retries responses renv i r =
        { outcome := ExecOutcome.raised
            (TwitchError.TwitchBackendException "The Twitch API returns a server error"),
          attempts := 1, refreshes := 0, headers := [hdr], final := self }) := by
  refine ⟨fun hr hns => ?_, fun hz => ?_, fun d hr hns => ?_, fun d hz => ?_⟩
  · unfold api_get_request
    rw [hhdr]
    simp only [h503]
    rw [dif_pos ⟨hauto, hr⟩]
    norm_num
    unfold api_get_request
    rw [hhdr]
    simp [hauto, hns]
  · subst hz
    unfold api_get_request
    rw [hhdr]
    simp [hauto, h503]
  · unfold api_post_request
    rw [hhdr]
    simp only [h503]
    rw [dif_pos ⟨hauto, hr⟩]
    norm_num
    unfold api_post_request
    rw [hhdr]
    simp [hauto, hns]
  · subst hz
    unfold api_post_request
    rw [hhdr]
    simp [hauto, h503]

/-- C2 witness: with budget 1 a 503 followed by a 200 yields the 200 response
after exactly two attempts and no refresh. -/
theorem transient_retry_needs_budget_witness :
    api_get_request appOnly AuthType.APP [] 1 resp503_200 (fun _ => envBoth) 0 0 =
      { outcome := ExecOutcome.returned 1 200, attempts := 2, refreshes := 0,
        headers := [[("Client-ID", "id"), ("Authorization", "Bearer appT")],
                    [("Client-ID", "id"), ("Authorization", "Bearer appT")]],
        final := appOnly } := by
  have h := (transient_retry_needs_budget appOnly AuthType.APP [] 1 resp503_200
      (fun _ => envBoth) 0 0 [("Client-ID", "id"), ("Authorization", "Bearer appT")]
      rfl (by simp [generate_header, appOnly, pyStr]) rfl).1 Nat.one_pos (by decide)
  simpa [resp503_200] using h

/-- C2 counterexample: budget 1, responses 401 then 503. The 401 consumes the
budget; the 503 then arrives with budget 0 and the executor raises the backend
error after only 2 attempts — the claimed unconditional resend of the 503 (which
would be attempt 3, returning the 200) never happens. -/
theorem transient_retry_counterexample :
    (api_get_request bothAuth AuthType.APP [] 1 resp401_503_200 (fun _ => envBoth) 0 0).outcome =
      ExecOutcome.raised
        (TwitchError.TwitchBackendException "The Twitch API returns a server error") ∧
    (api_get_request bothAuth AuthType.APP [] 1 resp401_503_200 (fun _ => envBoth) 0 0).attempts = 2 := by
  constructor <;>
    simp [api_get_request, generate_header, refresh_used_token, bothAuth, envBoth,
      resp401_503_200, pyStr]

/-- C3 (confirmed): with auto-refresh on and a positive budget, a 401 triggers
exactly one refresh and one resend with the budget decremented; at the default
budget 1, a second consecutive 401 is returned raw to the caller (total: 2
attempts, 1 refresh, no typed error); and a failing refresh propagates its
error with no resend. -/
theorem refresh_retry_401 (self : Twitch) (m : AuthType) (R : List AuthScope)
    (responses : Nat → Nat) (renv : Nat → RefreshEnv) (i r : Nat)
    (hdr : List (String × String))
    (hauto : self.auto_refresh_auth = true)
    (hhdr : generate_header self m R = Except.ok hdr)
    (h401 : responses i = 401) :
    (∀ retries, 0 < retries → ∀ self2, refresh_used_token self (renv r) = Except.ok self2 →
      api_get_request self m R retries responses renv i r =
        (let rest := api_get_request self2 m R (retries - 1) responses renv (i + 1) (r + 1)
        { outcome := rest.outcome, attempts := rest.attempts + 1,
          refreshes := rest.refreshes + 1, headers := hdr :: rest.headers,
          final := rest.final })) ∧
    (∀ self2 hdr2, refresh_used_token self (renv r) = Except.ok self2 →
      generate_header self2 m R = Except.ok hdr2 → responses (i + 1) = 401 →
      api_get_request self m R 1 responses renv i r =
        { outcome := ExecOutcome.returned (i + 1) 401, attempts := 2, refreshes := 1,
          headers := [hdr, hdr2], final := self2 }) ∧
    (∀ retries, 0 < retries → ∀ e, refresh_used_token self (renv r) = Except.error e →
      api_get_request self m R retries responses renv i r =
        { outcome := ExecOutcome.raised e, attempts := 1, refreshes := 1,
          headers := [hdr], final := self }) := by
  refine ⟨fun retries hr self2 href => ?_, fun self2 hdr2 href hhdr2 h401b => ?_,
    fun retries hr e href => ?_⟩
  · conv_lhs => unfold api_get_request
    rw [hhdr]
    simp only [h401]
    rw [dif_pos ⟨hauto, hr⟩]
    simp [href]
  · conv_lhs => unfold api_get_request
    rw [hhdr]
    simp only [h401]
    rw [dif_pos ⟨hauto, Nat.one_pos⟩]
    simp only [if_pos rfl, href]
    conv_lhs => unfold api_get_request
    rw [hhdr2]
    have hauto2 : self2.auto_refresh_auth = true :=
      (refresh_used_token_preserves self (renv r) self2 href).1.trans hauto
    simp [h401b, hauto2]
  · conv_lhs => unfold api_get_request
    rw [hhdr]
    simp only [h401]
    rw [dif_pos ⟨hauto, hr⟩]
    simp [href]

/-- C3 witness: both credentials installed, every attempt answers 401, budget 1:
the raw second 401 comes back after 2 attempts and exactly 1 refresh. -/
theorem refresh_retry_401_witness :
    api_get_request bothAuth AuthType.APP [] 1 (fun _ => 401) (fun _ => envBoth) 0 0 =
      { outcome := ExecOutcome.returned 1 401, attempts := 2, refreshes := 1,
        headers := [[("Client-ID", "id"), ("Authorization", "Bearer appT")],
                    [("Client-ID", "id"), ("Authorization", "Bearer appT")]],
        final := { bothAuth with user_auth_token := some "newU",
                                 user_auth_refresh_token := some "newR" } } := by
  have h := (refresh_retry_401 bothAuth AuthType.APP [] (fun _ => 401) (fun _ => envBoth)
      0 0 [("Client-ID", "id"), ("Authorization", "Bearer appT")]
      rfl (by simp [generate_header, bothAuth, pyStr]) rfl).2.1
      { bothAuth with user_auth_token := some "newU", user_auth_refresh_token := some "newR" }
      [("Client-ID", "id"), ("Authorization", "Bearer appT")]
      (by simp [refresh_used_token, bothAuth, envBoth])
      (by simp [generate_header, bothAuth, pyStr]) rfl
  simpa using h

/-- C4 (corrected): in `App` and `User` modes a missing credential makes
header-building fail with `UnauthorizedException` and the executor raise it
with zero attempts and zero refreshes, for every scope set and budget; but in
`Either` mode with no credential installed at all, header-building succeeds
with only the `Client-ID` header (the claim's universal quantification over
`Either` fails). -/
theorem unauthorized_fail_fast (self : Twitch) (R : List AuthScope)
    (retries : Nat) (responses : Nat → Nat) (renv : Nat → RefreshEnv) (i r : Nat) :
    (self.has_app_auth = false →
      generate_header self AuthType.APP R =
        Except.error (TwitchError.UnauthorizedException "Require app authentication!") ∧
      api_get_request self AuthType.APP R retries responses renv i r =
        { outcome := ExecOutcome.raised (TwitchError.UnauthorizedException "Require app authentication!"),
          attempts := 0, refreshes := 0, headers := [], final := self }) ∧
    (self.has_user_auth = false →
      generate_header self AuthType.USER R =
        Except.error (TwitchError.UnauthorizedException "require user authentication!") ∧
      api_get_request self AuthType.USER R retries responses renv i r =
        { outcome := ExecOutcome.raised (TwitchError.UnauthorizedException "require user authentication!"),
          attempts := 0, refreshes := 0, headers := [], final := self }) ∧
    (self.has_user_auth = false → self.has_app_auth = false →
      generate_header self AuthType.EITHER R = Except.ok [("Client-ID", self.app_id)]) := by
  refine ⟨fun happ => ?_, fun huser => ?_, fun huser happ => ?_⟩
  · have hh : generate_header self AuthType.APP R =
        Except.error (TwitchError.UnauthorizedException "Require app authentication!") := by
      simp [generate_header, happ]
    refine ⟨hh, ?_⟩
    unfold api_get_request
    rw [hh]
  · have hh : generate_header self AuthType.USER R =
        Except.error (TwitchError.UnauthorizedException "require user authentication!") := by
      simp [generate_header, huser]
    refine ⟨hh, ?_⟩
    unfold api_get_request
    rw [hh]
  · simp [generate_header, happ, huser]

/-- C4 witness: with no app credential an App-mode call raises before any
attempt is made. -/
theorem unauthorized_fail_fast_witness :
    api_get_request noAuth AuthType.APP [] 1 (fun _ => 200) (fun _ => envBoth) 0 0 =
      { outcome := ExecOutcome.raised (TwitchError.UnauthorizedException "Require app authentication!"),
        attempts := 0, refreshes := 0, headers := [], final := noAuth } :=
  ((unauthorized_fail_fast noAuth [] 1 (fun _ => 200) (fun _ => envBoth) 0 0).1 rfl).2

/-- C4 counterexample: `Either` mode with no credential installed does not fail
with `Unauthorized`: header-building succeeds (without an authorization entry)
and the network attempt is issued. -/
theorem unauthorized_fail_fast_counterexample :
    generate_header noAuth AuthType.EITHER ["chat_read"] = Except.ok [("Client-ID", "id")] ∧
    (api_get_request noAuth AuthType.EITHER ["chat_read"] 1
      (fun _ => 200) (fun _ => envBoth) 0 0).attempts = 1 := by
  constructor
  · simp [generate_header, noAuth]
  · simp [api_get_request, generate_header, noAuth]

/-- C5 (confirmed): with the credential for the mode installed, header-building
in App or User mode succeeds iff the required scopes are a subset of the
granted ones; on failure it raises `MissingScopeException` naming the first
scope of the required list missing from the granted set (an element of R \ G);
on success it emits the bearer header of the selected credential. -/
theorem scope_check_iff_subset (self : Twitch) (R : List AuthScope) :
    (self.has_app_auth = true →
      ((∃ hdr, generate_header self AuthType.APP R = Except.ok hdr) ↔
        ∀ s ∈ R, s ∈ self.app_auth_scope) ∧
      (¬ (∀ s ∈ R, s ∈ self.app_auth_scope) →
        ∃ t, R.find? (fun s => decide (s ∉ self.app_auth_scope)) = some t ∧
          t ∈ R ∧ t ∉ self.app_auth_scope ∧
          generate_header self AuthType.APP R =
            Except.error (TwitchError.MissingScopeException ("Require app auth scope " ++ t))) ∧
      ((∀ s ∈ R, s ∈ self.app_auth_scope) →
        generate_header self AuthType.APP R =
          Except.ok [("Client-ID", self.app_id),
            ("Authorization", "Bearer " ++ pyStr self.app_auth_token)])) ∧
    (self.has_user_auth = true →
      ((∃ hdr, generate_header self AuthType.USER R = Except.ok hdr) ↔
        ∀ s ∈ R, s ∈ self.user_auth_scope) ∧
      (¬ (∀ s ∈ R, s ∈ self.user_auth_scope) →
        ∃ t, R.find? (fun s => decide (s ∉ self.user_auth_scope)) = some t ∧
          t ∈ R ∧ t ∉ self.user_auth_scope ∧
          generate_header self AuthType.USER R =
            Except.error (TwitchError.MissingScopeException ("Require user auth scope " ++ t))) ∧
      ((∀ s ∈ R, s ∈ self.user_auth_scope) →
        generate_header self AuthType.USER R =
          Except.ok [("Client-ID", self.app_id),
            ("Authorization", "Bearer " ++ pyStr self.user_auth_token)])) := by
  constructor
  · intro happ
    refine ⟨⟨?_, ?_⟩, ?_, ?_⟩
    · rintro ⟨hdr, hok⟩
      by_contra hnsub
      obtain ⟨t, hfind, -, -⟩ := find_unmet_some _ _ hnsub
      rw [generate_header_APP_missing self R t happ hfind] at hok
      exact Except.noConfusion hok
    · intro hsub
      exact ⟨_, generate_header_APP_ok self R happ (find_unmet_none _ _ hsub)⟩
    · intro hnsub
      obtain ⟨t, hfind, htR, htG⟩ := find_unmet_some _ _ hnsub
      exact ⟨t, hfind, htR, htG, generate_header_APP_missing self R t happ hfind⟩
    · intro hsub
      exact generate_header_APP_ok self R happ (find_unmet_none _ _ hsub)
  · intro huser
    refine ⟨⟨?_, ?_⟩, ?_, ?_⟩
    · rintro ⟨hdr, hok⟩
      by_contra hnsub
      obtain ⟨t, hfind, -, -⟩ := find_unmet_some _ _ hnsub
      rw [generate_header_USER_missing self R t huser hfind] at hok
      exact Except.noConfusion hok
    · intro hsub
      exact ⟨_, generate_header_USER_ok self R huser (find_unmet_none _ _ hsub)⟩
    · intro hnsub
      obtain ⟨t, hfind, htR, htG⟩ := find_unmet_some _ _ hnsub
      exact ⟨t, hfind, htR, htG, generate_header_USER_missing self R t huser hfind⟩
    · intro hsub
      exact generate_header_USER_ok self R huser (find_unmet_none _ _ hsub)

/-- C5 witness: granted scopes `A`, required `A` — the bearer header of the app
credential is emitted. -/
theorem scope_check_iff_subset_witness :
    generate_header appOnly AuthType.APP ["A"] =
      Except.ok [("Client-ID", "id"), ("Authorization", "Bearer appT")] := by
  have h := ((scope_check_iff_subset appOnly ["A"]).1 rfl).2.2 (by decide)
  simpa [appOnly, pyStr] using h

/-- C6 (confirmed): with auto-refresh enabled and a positive budget, a 503
answered by another 503 on the mandated resend raises
`TwitchBackendException` after exactly 2 attempts and 0 refresh invocations —
the token refresher is never touched on the 503 path. -/
theorem double_503_backend_error (self : Twitch) (m : AuthType) (R : List AuthScope)
    (retries : Nat) (responses : Nat → Nat) (renv : Nat → RefreshEnv) (i r : Nat)
    (hdr : List (String × String))
    (hauto : self.auto_refresh_auth = true)
    (hhdr : generate_header self m R = Except.ok hdr)
    (hr : 0 < retries)
    (h1 : responses i = 503) (h2 : responses (i + 1) = 503) :
    api_get_request self m R retries responses renv i r =
      { outcome := ExecOutcome.raised
          (TwitchError.TwitchBackendException "The Twitch API returns a server error"),
        attempts := 2, refreshes := 0, headers := [hdr, hdr], final := self } := by
  unfold api_get_request
  rw [hhdr]
  simp only [h1]
  rw [dif_pos ⟨hauto, hr⟩]
  norm_num
  unfold api_get_request
  rw [hhdr]
  simp [h2, hauto]

/-- C6 witness: every attempt answers 503; with budget 1 the run raises the
backend error after two attempts and no refresh. -/
theorem double_503_backend_error_witness :
    api_get_request appOnly AuthType.APP [] 1 (fun _ => 503) (fun _ => envBoth) 0 0 =
      { outcome := ExecOutcome.raised
          (TwitchError.TwitchBackendException "The Twitch API returns a server error"),
        attempts := 2, refreshes := 0,
        headers := [[("Client-ID", "id"), ("Authorization", "Bearer appT")],
                    [("Client-ID", "id"), ("Authorization", "Bearer appT")]],
        final := appOnly } :=
  double_503_backend_error appOnly AuthType.APP [] 1 (fun _ => 503) (fun _ => envBoth) 0 0
    [("Client-ID", "id"), ("Authorization", "Bearer appT")]
    rfl (by simp [generate_header, appOnly, pyStr]) Nat.one_pos rfl rfl

/-- C7 (confirmed): with auto-refresh disabled the executor performs exactly one
attempt and hands back the raw response whatever its status (no refresh, no
resend, no backend error), while header-building failures still abort the call
before any attempt. -/
theorem no_auto_refresh_single_attempt (self : Twitch) (m : AuthType) (R : List AuthScope)
    (retries : Nat) (responses : Nat → Nat) (renv : Nat → RefreshEnv) (i r : Nat)
    (hoff : self.auto_refresh_auth = false) :
    (∀ hdr, generate_header self m R = Except.ok hdr →
      api_get_request self m R retries responses renv i r =
        { outcome := ExecOutcome.returned i (responses i), attempts := 1, refreshes := 0,
          headers := [hdr], final := self }) ∧
    (∀ e, generate_header self m R = Except.error e →
      api_get_request self m R retries responses renv i r =
        { outcome := ExecOutcome.raised e, attempts := 0, refreshes := 0,
          headers := [], final := self }) := by
  constructor
  · intro hdr hok
    unfold api_get_request
    rw [hok]
    simp [hoff]
  · intro e herr
    unfold api_get_request
    rw [herr]

/-- C7 witness: auto-refresh disabled, the server answers 401 — the raw 401 is
returned after a single attempt with no refresh. -/
theorem no_auto_refresh_single_attempt_witness :
    api_get_request appOnlyNoRefresh AuthType.APP [] 1 (fun _ => 401) (fun _ => envBoth) 0 0 =
      { outcome := ExecOutcome.returned 0 401, attempts := 1, refreshes := 0,
        headers := [[("Client-ID", "id"), ("Authorization", "Bearer appT")]],
        final := appOnlyNoRefresh } := by
  have h := (no_auto_refresh_single_attempt appOnlyNoRefresh AuthType.APP [] 1
      (fun _ => 401) (fun _ => envBoth) 0 0 rfl).1
      [("Client-ID", "id"), ("Authorization", "Bearer appT")]
      (by simp [generate_header, appOnlyNoRefresh, pyStr])
  simpa using h

/-- C8 (confirmed): the executors are total functions of the budget (their
recursion is well-founded on `retries`, as established by their termination
proofs), and for every initial budget, state, auth mode, scope set, response
stream and refresh environment, the GET and POST executors make at most
`retries + 1` HTTP attempts; with the default budget 1 that is at most 2. -/
theorem executor_attempt_bound (self : Twitch) (m : AuthType) (R : List AuthScope)
    (d : Option (List (String × String))) (retries : Nat) (responses : Nat → Nat)
    (renv : Nat → RefreshEnv) (i r : Nat) :
    (api_get_request self m R retries responses renv i r).attempts ≤ retries + 1 ∧
    (api_post_request self m R d retries responses renv i r).attempts ≤ retries + 1 :=
  ⟨api_get_request_attempts_le retries self m R responses renv i r,
   api_post_request_attempts_le retries self m R d responses renv i r⟩

/-- C9 (confirmed): `Either` mode never raises and ignores the required scope
set entirely; it bears the user token when user auth is set, else the app token
when app auth is set, else omits the authorization entry; the token used is
exactly `get_used_token`; and every successfully built header, in every mode,
carries the `Client-ID` entry. -/
theorem either_mode_header (self : Twitch) (R R2 : List AuthScope) :
    (∃ hdr, generate_header self AuthType.EITHER R = Except.ok hdr) ∧
    generate_header self AuthType.EITHER R = generate_header self AuthType.EITHER R2 ∧
    (self.has_user_auth = true →
      generate_header self AuthType.EITHER R =
        Except.ok [("Client-ID", self.app_id),
          ("Authorization", "Bearer " ++ pyStr self.user_auth_token)]) ∧
    (self.has_user_auth = false → self.has_app_auth = true →
      generate_header self AuthType.EITHER R =
        Except.ok [("Client-ID", self.app_id),
          ("Authorization", "Bearer " ++ pyStr self.app_auth_token)]) ∧
    (self.has_user_auth = false → self.has_app_auth = false →
      generate_header self AuthType.EITHER R = Except.ok [("Client-ID", self.app_id)]) ∧
    ((self.has_user_auth = true ∨ self.has_app_auth = true) →
      generate_header self AuthType.EITHER R =
        Except.ok [("Client-ID", self.app_id),
          ("Authorization", "Bearer " ++ pyStr (get_used_token self))]) ∧
    (∀ m hdr, generate_header self m R = Except.ok hdr → ("Client-ID", self.app_id) ∈ hdr) := by
  refine ⟨?_, ?_, fun hu => ?_, fun hu ha => ?_, fun hu ha => ?_, fun h => ?_, fun m hdr hok => ?_⟩
  · rcases hu : self.has_user_auth <;> rcases ha : self.has_app_auth
    · exact ⟨[("Client-ID", self.app_id)], by simp [generate_header, hu, ha]⟩
    · exact ⟨[("Client-ID", self.app_id),
        ("Authorization", "Bearer " ++ pyStr self.app_auth_token)],
        by simp [generate_header, hu, ha]⟩
    · exact ⟨[("Client-ID", self.app_id),
        ("Authorization", "Bearer " ++ pyStr self.user_auth_token)],
        by simp [generate_header, hu, ha]⟩
    · exact ⟨[("Client-ID", self.app_id),
        ("Authorization", "Bearer " ++ pyStr self.user_auth_token)],
        by simp [generate_header, hu, ha]⟩
  · rcases hu : self.has_user_auth <;> rcases ha : self.has_app_auth <;>
      simp [generate_header, hu, ha]
  · simp [generate_header, hu]
  · simp [generate_header, hu, ha]
  · simp [generate_header, hu, ha]
  · rcases h with hu | ha
    · simp [generate_header, get_used_token, hu]
    · rcases hu : self.has_user_auth
      · simp [generate_header, get_used_token, hu, ha]
      · simp [generate_header, get_used_token, hu]
  · cases m with
    | APP =>
        rcases ha : self.has_app_auth
        · simp [generate_header, ha] at hok
        · rcases hfind : R.find? (fun s => decide (s ∉ self.app_auth_scope)) with _ | t
          · rw [generate_header_APP_ok self R ha hfind] at hok
            simp only [Except.ok.injEq] at hok
            subst hok
            simp
          · rw [generate_header_APP_missing self R t ha hfind] at hok
            exact Except.noConfusion hok
    | USER =>
        rcases hu : self.has_user_auth
        · simp [generate_header, hu] at hok
        · rcases hfind : R.find? (fun s => decide (s ∉ self.user_auth_scope)) with _ | t
          · rw [generate_header_USER_ok self R hu hfind] at hok
            simp only [Except.ok.injEq] at hok
            subst hok
            simp
          · rw [generate_header_USER_missing self R t hu hfind] at hok
            exact Except.noConfusion hok
    | EITHER =>
        rcases hu : self.has_user_auth <;> rcases ha : self.has_app_auth <;>
          simp [generate_header, hu, ha] at hok <;> subst hok <;> simp

/-- C9 witness: both credentials installed, a non-empty required scope set —
`Either` still succeeds, bearing the user token. -/
theorem either_mode_header_witness :
    generate_header bothAuth AuthType.EITHER ["A", "B", "C"] =
      Except.ok [("Client-ID", "id"), ("Authorization", "Bearer userT")] := by
  have h := (either_mode_header bothAuth ["A", "B", "C"] []).2.2.1 rfl
  simpa [bothAuth, pyStr] using h

/-- C10 (confirmed): `authenticate_app` stores the requested scope list before
contacting the auth endpoint, so when token generation fails the resulting
state is exactly the old one with only the app scope list replaced: the app
token and the has-app-auth flag keep their previous values, the raised error is
an authorization failure, and any later app-token refresh posts the new scope
list. -/
theorem authenticate_app_scope_persists_on_failure (self : Twitch)
    (scope : List AuthScope) (resp : AuthResponse)
    (hfail : ∀ tok, resp ≠ AuthResponse.ok tok) :
    (authenticate_app self scope resp).1 = { self with app_auth_scope := scope } ∧
    (∃ msg, (authenticate_app self scope resp).2 =
      some (TwitchError.TwitchAuthorizationException msg)) ∧
    (authenticate_app self scope resp).1.app_auth_token = self.app_auth_token ∧
    (authenticate_app self scope resp).1.has_app_auth = self.has_app_auth ∧
    app_token_params (authenticate_app self scope resp).1 =
      [("client_id", self.app_id), ("client_secret", self.app_secret),
       ("grant_type", "client_credentials"), ("scope", build_scope scope)] := by
  cases resp with
  | ok tok => exact absurd rfl (hfail tok)
  | httpError c t =>
      simp [authenticate_app, generate_app_token, app_token_params]
  | invalidJson =>
      simp [authenticate_app, generate_app_token, app_token_params]
  | missingToken =>
      simp [authenticate_app, generate_app_token, app_token_params]

/-- C10 witness: a previously app-authenticated client re-authenticates with
scope `C` and the endpoint answers 500 — the stored scope list is now `C` while
the old token is still installed and the has-app-auth flag still set. -/
theorem authenticate_app_scope_witness :
    (authenticate_app appOnly ["C"] (AuthResponse.httpError 500 "oops")).1 =
      { appOnly with app_auth_scope := ["C"] } ∧
    (authenticate_app appOnly ["C"] (AuthResponse.httpError 500 "oops")).1.app_auth_token =
      some "appT" ∧
    (authenticate_app appOnly ["C"] (AuthResponse.httpError 500 "oops")).1.has_app_auth = true := by
  have h := authenticate_app_scope_persists_on_failure appOnly ["C"]
    (AuthResponse.httpError 500 "oops") (fun tok hk => AuthResponse.noConfusion hk)
  exact ⟨h.1, h.2.2.1.trans (by simp [appOnly]), h.2.2.2.1.trans (by simp [appOnly])⟩

end TwitchAPI
